import Mathlib

/-!
Shallow embedding of the admin trade-management frontend
(Devcourse-BE6-8-3-Team10/Frontend): the admin trades page
(enrichment, filtering, sorting, label mappings), the trade detail
modal's fetch/close state handling, the login page's error-message
mapping, and the registration page's submit validation.

JavaScript semantics modelled explicitly:
  - optional / possibly-undefined values are `Option`;
  - string truthiness (`s && ...`, `s ? ... : ...`): the empty string is
    falsy, every other string truthy;
  - `??` (nullish coalescing) is `Option.getD`;
  - `String.prototype.includes` is substring containment (`strIncludes`);
  - a thrown/rejected promise is the `Except.error` branch;
  - `Array.prototype.map` with `Promise.all` (order-preserving join) is
    `List.map` over a pure fetch function;
  - `Array.prototype.sort` with a comparator is a comparator-driven
    insertion sort (the comparator here never returns 0 on the inputs the
    claims touch, so any correct sort agrees);
  - `Date.prototype.getTime` is an uninterpreted parameter
    `getTime : String → Int`.
-/

/-- JS string truthiness: the empty string is falsy, all others truthy. -/
def strTruthy (s : String) : Bool := s ≠ ""

/-- Helper for `pat.isPrefix-like` matching on char lists: `leadsWith pat txt`
is true when `pat` occurs at the very start of `txt`. -/
def leadsWith : List Char → List Char → Bool
  | [], _ => true
  | _ :: _, [] => false
  | p :: ps, t :: ts => p = t && leadsWith ps ts

/-- Substring occurrence on char lists: `hasSub pat txt` is true when `pat`
occurs contiguously somewhere in `txt`. -/
def hasSub (pat : List Char) : List Char → Bool
  | [] => leadsWith pat []
  | t :: ts => leadsWith pat (t :: ts) || hasSub pat ts

/-- JS `s.includes(pat)`: case-sensitive substring containment. -/
def strIncludes (s pat : String) : Bool := hasSub pat.toList s.toList

/-- The empty pattern starts every text. -/
theorem leadsWith_nil (txt : List Char) : leadsWith [] txt = true := by
  cases txt <;> rfl

/-- The empty pattern occurs in every text (JS: `s.includes("") === true`). -/
theorem hasSub_nil (txt : List Char) : hasSub [] txt = true := by
  induction txt with
  | nil => rfl
  | cons t ts ih => simp [hasSub, leadsWith_nil, ih]

/-- JS `s.includes("")` is always true. -/
theorem strIncludes_empty (s : String) : strIncludes s "" = true := by
  simp [strIncludes, hasSub_nil]

/-- A nonempty pattern never occurs in the empty text. -/
theorem hasSub_nil_text (p : Char) (ps : List Char) :
    hasSub (p :: ps) [] = false := rfl

/-- Trade record as returned by the backend list endpoint
(src/unnamed/part_000, `interface Trade`). -/
structure Trade where
  id : Nat
  postId : Nat
  sellerId : Nat
  buyerId : Nat
  price : Nat
  status : String
  createdAt : String
deriving DecidableEq, Repr

/-- Trade with optional post metadata merged in
(src/unnamed/part_000, `interface TradeWithPostInfo`). -/
structure TradeWithPostInfo extends Trade where
  postTitle : Option String := none
  postCategory : Option String := none
deriving DecidableEq, Repr

/-- Korean status label mapping (src/unnamed/part_000 `getStatusLabel`,
identical copy in TradeDetailModal.tsx): a switch on the four status
codes, default returns the input unchanged. -/
def getStatusLabel (status : String) : String :=
  if status = "REQUEST" then "거래 요청"
  else if status = "ACCEPT" then "거래 수락"
  else if status = "CANCELED" then "거래 취소"
  else if status = "COMPLETED" then "거래 완료"
  else status

/-- The six already-localized Korean category labels
(src/unnamed/part_000 `getCategoryLabel`, `koreanCategories`). -/
def koreanCategories : List String :=
  ["물건발명", "방법발명", "용도발명", "디자인권", "상표권", "저작권"]

/-- Category label mapping (src/unnamed/part_000 `getCategoryLabel`):
already-Korean labels pass through; the six backend codes map to their
Korean labels; otherwise `category || "기타"` — the empty string (the only
falsy string) becomes "기타" and every other string passes through. -/
def getCategoryLabel (category : String) : String :=
  if koreanCategories.contains category then category
  else if category = "PRODUCT" then "물건발명"
  else if category = "METHOD" then "방법발명"
  else if category = "USAGE" then "용도발명"
  else if category = "DESIGN" then "디자인권"
  else if category = "TRADEMARK" then "상표권"
  else if category = "COPYRIGHT" then "저작권"
  else if strTruthy category then category
  else "기타"

/-- Payload of a successful `adminAPI.getTradeDetail` call, as consumed by
`fetchPostInfoForTrades`: the destructured `data` object's two accessed
fields, each possibly absent. -/
structure PostData where
  postTitle : Option String := none
  postCategory : Option String := none
deriving DecidableEq, Repr

/-- One step of the enrichment fan-out (src/unnamed/part_000
`fetchPostInfoForTrades`, body of the `trades.map` callback). The fetch
returns `Except Unit (Option PostData)`: `.error` is a rejected promise
(the `catch` branch), `.ok none` a resolved call whose `data` field is
absent. On success: `postTitle: data?.postTitle ?? '제목 없음'` and
`postCategory: data?.postCategory ? getCategoryLabel(data.postCategory)
: '카테고리 없음'` (truthiness: an empty-string category also falls to
'카테고리 없음'). On failure both fallback labels are used. -/
def enrichTrade (fetch : Trade → Except Unit (Option PostData))
    (trade : Trade) : TradeWithPostInfo :=
  match fetch trade with
  | .ok data =>
      { trade with
        postTitle := some ((data.bind PostData.postTitle).getD "제목 없음")
        postCategory := some
          (match data.bind PostData.postCategory with
            | some c => if strTruthy c then getCategoryLabel c else "카테고리 없음"
            | none => "카테고리 없음") }
  | .error _ =>
      { trade with
        postTitle := some "제목 없음"
        postCategory := some "카테고리 없음" }

/-- Enrichment fan-out (src/unnamed/part_000 `fetchPostInfoForTrades`):
`Promise.all(trades.map(...))` resolves to the per-trade results in input
order; per-item failures are caught inside the callback, so the join never
rejects. -/
def fetchPostInfoForTrades (fetch : Trade → Except Unit (Option PostData))
    (trades : List Trade) : List TradeWithPostInfo :=
  trades.map (enrichTrade fetch)

/-- Search half of the filter predicate (src/unnamed/part_000
`filteredTrades`, `matchesSearch`): id string, truthy post title, truthy
post category, or price string contains the search term. An
undefined/empty title or category short-circuits to falsy. -/
def matchesSearch (searchTerm : String) (trade : TradeWithPostInfo) : Bool :=
  strIncludes (toString trade.id) searchTerm
  || (match trade.postTitle with
      | some t => strTruthy t && strIncludes t searchTerm
      | none => false)
  || (match trade.postCategory with
      | some c => strTruthy c && strIncludes c searchTerm
      | none => false)
  || strIncludes (toString trade.price) searchTerm

/-- Status half of the filter predicate (src/unnamed/part_000
`filteredTrades`, `matchesStatus`). -/
def matchesStatus (statusFilter : String) (trade : TradeWithPostInfo) : Bool :=
  statusFilter = "ALL" || trade.status = statusFilter

/-- Filtered trade list (src/unnamed/part_000 `filteredTrades`):
`tradesWithPostInfo.filter(...)` keeping records passing both halves. -/
def filteredTrades (searchTerm statusFilter : String)
    (tradesWithPostInfo : List TradeWithPostInfo) : List TradeWithPostInfo :=
  tradesWithPostInfo.filter
    (fun trade => matchesSearch searchTerm trade && matchesStatus statusFilter trade)

/-- The filter predicate as the spec words it (spec §4.2, for comparison
with the code's `filteredTrades`): status filter is ALL or equals the
record's status, AND the search term is empty or is a case-sensitive
substring of one of the four searched fields. -/
def specFilterPred (searchTerm statusFilter : String)
    (trade : TradeWithPostInfo) : Prop :=
  (statusFilter = "ALL" ∨ trade.status = statusFilter) ∧
  (searchTerm = ""
    ∨ strIncludes (toString trade.id) searchTerm = true
    ∨ (∃ t, trade.postTitle = some t ∧ strIncludes t searchTerm = true)
    ∨ (∃ c, trade.postCategory = some c ∧ strIncludes c searchTerm = true)
    ∨ strIncludes (toString trade.price) searchTerm = true)

/-- Sort key (spec §3 ViewState; the page's `sortBy` state only ever holds
one of these five strings, set by the column-header click handlers with
initial value 'createdAt'). -/
inductive SortKey
  | id | price | createdAt | postTitle | postCategory
deriving DecidableEq, Repr

/-- A JS value produced by the comparator's `switch` in `sortedTrades`:
either a number or a string. -/
inductive SortVal
  | num (n : Int)
  | str (s : String)
deriving DecidableEq, Repr

/-- JS `aValue > bValue` for the comparator's values. The key determines
the variant, so both sides always have the same variant; a mixed
comparison never arises and is mapped to false. -/
def SortVal.gt : SortVal → SortVal → Bool
  | .num a, .num b => b < a
  | .str a, .str b => b < a
  | _, _ => false

/-- JS `aValue < bValue` for the comparator's values. -/
def SortVal.lt : SortVal → SortVal → Bool
  | .num a, .num b => a < b
  | .str a, .str b => a < b
  | _, _ => false

/-- Per-key sort value (src/unnamed/part_000 `sortedTrades`, the `switch
(sortBy)`): createdAt via `new Date(...).getTime()` (modelled by the
uninterpreted `getTime`), price and id numerically, postTitle and
postCategory as strings with `|| ''` for absent values. -/
def sortValue (getTime : String → Int) (sortBy : SortKey)
    (trade : TradeWithPostInfo) : SortVal :=
  match sortBy with
  | .createdAt => .num (getTime trade.createdAt)
  | .price => .num trade.price
  | .id => .num trade.id
  | .postTitle => .str ((trade.postTitle.filter strTruthy).getD "")
  | .postCategory => .str ((trade.postCategory.filter strTruthy).getD "")

/-- The comparator passed to `.sort` (src/unnamed/part_000
`sortedTrades`): ascending returns `aValue > bValue ? 1 : -1`, descending
`aValue < bValue ? 1 : -1`; it never returns 0. -/
def tradeComparator (getTime : String → Int) (sortBy : SortKey)
    (sortOrder : String) (a b : TradeWithPostInfo) : Int :=
  let aValue := sortValue getTime sortBy a
  let bValue := sortValue getTime sortBy b
  if sortOrder = "asc" then (if aValue.gt bValue then 1 else -1)
  else (if aValue.lt bValue then 1 else -1)

/-- Insert with a JS-style comparator: `x` goes before the first element
`y` with `cmp x y ≤ 0`. -/
def insertCmp (cmp : α → α → Int) (x : α) : List α → List α
  | [] => [x]
  | y :: ys => if cmp x y ≤ 0 then x :: y :: ys else y :: insertCmp cmp x ys

/-- Comparator-driven sort modelling `Array.prototype.sort(cmp)`: a
stable insertion sort. On comparators that induce a strict total order
(as the price comparator does on distinct prices) every correct sort
agrees with this one. -/
def sortByCmp (cmp : α → α → Int) : List α → List α
  | [] => []
  | x :: xs => insertCmp cmp x (sortByCmp cmp xs)

/-- Sorted trade list (src/unnamed/part_000 `sortedTrades`):
`[...filteredTrades].sort(comparator)`; takes the already-filtered list. -/
def sortedTrades (getTime : String → Int) (sortBy : SortKey)
    (sortOrder : String) (filtered : List TradeWithPostInfo) :
    List TradeWithPostInfo :=
  sortByCmp (tradeComparator getTime sortBy sortOrder) filtered

/-- Full trade detail as consumed by the modal
(TradeDetailModal.tsx `interface Trade`). -/
structure TradeDetail where
  id : Nat
  postId : Nat
  postTitle : String
  postCategory : String
  price : Nat
  status : String
  createdAt : String
  sellerEmail : String
  buyerEmail : String
deriving DecidableEq, Repr

/-- The trade detail modal's state (TradeDetailModal.tsx): the `trade`,
`isLoading` and `error` useState hooks plus the `tradeId` prop current at
that moment. -/
structure ModalState where
  tradeId : Nat
  trade : Option TradeDetail := none
  isLoading : Bool := false
  error : Option String := none
deriving DecidableEq, Repr

/-- Entry of `fetchTradeDetail` (TradeDetailModal.tsx lines 76-81):
`setIsLoading(true); setError(null)` before awaiting the fetch. -/
def fetchStart (s : ModalState) : ModalState :=
  { s with isLoading := true, error := none }

/-- Success path of `fetchTradeDetail` (TradeDetailModal.tsx lines 83-85
and the `finally`): `setTrade(response.data)` applied unconditionally —
the handler performs no comparison of `tradeData.id` against the
`tradeId` current when the promise resolves — then `setIsLoading(false)`. -/
def fetchResolve (s : ModalState) (tradeData : TradeDetail) : ModalState :=
  { s with trade := some tradeData, isLoading := false }

/-- Failure path of `fetchTradeDetail` (TradeDetailModal.tsx lines 86-92):
`setError(message from payload, else the fixed fallback)`, then
`setIsLoading(false)`. The payload message is used only when truthy. -/
def fetchReject (s : ModalState) (payloadMessage : Option String) : ModalState :=
  { s with
    error := some (match payloadMessage with
      | some m => if strTruthy m then m else "거래 상세 정보를 불러오는데 실패했습니다."
      | none => "거래 상세 정보를 불러오는데 실패했습니다.")
    isLoading := false }

/-- Modal close (TradeDetailModal.tsx `handleClose`): `setTrade(null);
setError(null)` then the parent's `onClose` callback. -/
def handleClose (s : ModalState) : ModalState :=
  { s with trade := none, error := none }

/-- Backdrop click handler (TradeDetailModal.tsx `handleBackdropClick`):
runs `handleClose` exactly when the click target is the backdrop element
itself (`e.target === e.currentTarget`). -/
def handleBackdropClick (targetIsCurrentTarget : Bool) (s : ModalState) : ModalState :=
  if targetIsCurrentTarget then handleClose s else s

/-- Error payload data of a failed login call
(login/page.tsx `interface ApiError`, the `response.data` part). -/
structure ErrData where
  message : Option String := none
  resultCode : Option String := none
deriving DecidableEq, Repr

/-- Response part of a failed login call
(login/page.tsx `interface ApiError`, the `response` part). -/
structure ErrResponse where
  data : Option ErrData := none
  status : Option Nat := none
deriving DecidableEq, Repr

/-- A caught login error (login/page.tsx `interface ApiError`): an
optional response and the truthiness of the `request` field. -/
structure ApiError where
  response : Option ErrResponse := none
  hasRequest : Bool := false
deriving DecidableEq, Repr

/-- Optional-chain `apiError.response?.data?.message`. -/
def ApiError.payloadMessage (e : ApiError) : Option String :=
  (e.response.bind ErrResponse.data).bind ErrData.message

/-- Optional-chain `apiError.response?.data?.resultCode`. -/
def ApiError.payloadResultCode (e : ApiError) : Option String :=
  (e.response.bind ErrResponse.data).bind ErrData.resultCode

/-- Optional-chain `apiError.response?.status`. -/
def ApiError.respStatus (e : ApiError) : Option Nat :=
  e.response.bind ErrResponse.status

/-- The status-code chain of the login catch block after the
payload-message test failed (login/page.tsx `handleSubmit`, lines
214-234). -/
def loginErrorFallback (e : ApiError) : String :=
  if e.respStatus = some 401 then
    "이메일 혹은 비밀번호를 잘못 입력하셨거나 등록되지 않은 계정입니다."
  else if e.respStatus = some 400 then
    "이메일 혹은 비밀번호를 잘못 입력하셨거나 등록되지 않은 계정입니다."
  else if e.respStatus = some 403 then
    if e.payloadResultCode = some "403-1" then
      "탈퇴한 계정입니다. 새로운 계정으로 가입해주세요."
    else if e.payloadResultCode = some "403-2" then
      "관리자에 의해 정지된 계정입니다. 관리자에게 문의 바랍니다."
    else "접근 권한이 없습니다."
  else if e.respStatus = some 500 then
    "서버 오류가 발생했습니다. 잠시 후 다시 시도해주세요."
  else if e.hasRequest then
    "서버 연결에 실패했습니다. 네트워크 연결을 확인해주세요."
  else "로그인 중 오류가 발생했습니다. 다시 시도해주세요."

/-- Login failure branch (login/page.tsx `handleSubmit` catch block,
lines 210-234): a truthy payload message is shown verbatim; otherwise the
status code selects a fixed message, with `resultCode` discrimination on
403; a truthy `request` field with no matching status gives the
connectivity message; otherwise the generic message. -/
def loginErrorMessage (e : ApiError) : String :=
  match e.payloadMessage with
  | some m => if strTruthy m then m else loginErrorFallback e
  | none => loginErrorFallback e

/-- Registration form state (src/unnamed/part_000 `RegisterPage`,
`formData`). -/
structure RegisterForm where
  name : String := ""
  email : String := ""
  password : String := ""
  confirmPassword : String := ""
  agree : Bool := false
deriving DecidableEq, Repr

/-- Outcome of the registration submit handler before any network
response arrives: either a client-side validation error message with no
request issued, or the signup request with the body it posts. -/
inductive RegisterSubmitAction
  | validationError (message : String)
  | signupRequest (name email password : String)
deriving DecidableEq, Repr

/-- Registration submit validation (src/unnamed/part_000 `RegisterPage`
`handleSubmit`, lines 56-80): password/confirm mismatch returns with the
mismatch message before the request; an unchecked agreement returns with
the agreement message; otherwise the signup request is posted. -/
def registerSubmit (f : RegisterForm) : RegisterSubmitAction :=
  if f.password ≠ f.confirmPassword then
    .validationError "비밀번호가 일치하지 않습니다."
  else if !f.agree then
    .validationError "이용약관에 동의해주세요."
  else
    .signupRequest f.name f.email f.password

/-- Concrete trade used by concrete-input theorems. -/
def sampleTrade (id price : Nat) (status : String) : Trade :=
  { id := id, postId := id + 100, sellerId := 1, buyerId := 2,
    price := price, status := status, createdAt := "2024-01-01T00:00:00" }

/-- Claim C5: the category-label mapping is idempotent — applying
`getCategoryLabel` twice equals applying it once for every string, and
each of the six localized labels maps to itself. -/
theorem getCategoryLabel_idem (c : String) :
    getCategoryLabel (getCategoryLabel c) = getCategoryLabel c ∧
    (∀ k ∈ koreanCategories, getCategoryLabel k = k) := by
  refine ⟨?_, by decide⟩
  by_cases h1 : c ∈ koreanCategories
  · simp only [koreanCategories, List.mem_cons, List.mem_singleton,
      List.not_mem_nil, or_false] at h1
    rcases h1 with h | h | h | h | h | h <;> subst h <;> decide
  · by_cases h2 : c = "PRODUCT"
    · subst h2; decide
    by_cases h3 : c = "METHOD"
    · subst h3; decide
    by_cases h4 : c = "USAGE"
    · subst h4; decide
    by_cases h5 : c = "DESIGN"
    · subst h5; decide
    by_cases h6 : c = "TRADEMARK"
    · subst h6; decide
    by_cases h7 : c = "COPYRIGHT"
    · subst h7; decide
    by_cases h8 : c = ""
    · subst h8; decide
    have hc : getCategoryLabel c = c := by
      simp [getCategoryLabel, h1, h2, h3, h4, h5, h6, h7, strTruthy, h8]
    rw [hc]
    exact hc

/-- Claim C8: every status string outside the four enum values passes
through `getStatusLabel` unchanged, and each enum value maps to its fixed
Korean label. -/
theorem getStatusLabel_passthrough (s : String)
    (h1 : s ≠ "REQUEST") (h2 : s ≠ "ACCEPT")
    (h3 : s ≠ "CANCELED") (h4 : s ≠ "COMPLETED") :
    getStatusLabel s = s ∧
    getStatusLabel "REQUEST" = "거래 요청" ∧
    getStatusLabel "ACCEPT" = "거래 수락" ∧
    getStatusLabel "CANCELED" = "거래 취소" ∧
    getStatusLabel "COMPLETED" = "거래 완료" := by
  refine ⟨?_, by decide, by decide, by decide, by decide⟩
  simp [getStatusLabel, h1, h2, h3, h4]

/-- Witness for C8 at the concrete unrecognized status "PENDING". -/
theorem getStatusLabel_passthrough_witness :
    getStatusLabel "PENDING" = "PENDING" ∧
    getStatusLabel "REQUEST" = "거래 요청" ∧
    getStatusLabel "ACCEPT" = "거래 수락" ∧
    getStatusLabel "CANCELED" = "거래 취소" ∧
    getStatusLabel "COMPLETED" = "거래 완료" :=
  getStatusLabel_passthrough "PENDING"
    (by decide) (by decide) (by decide) (by decide)

/-- Claim C9: `handleClose` always resets the modal state — afterwards
the loaded trade is null and the error is null — and a backdrop click on
the backdrop element itself runs exactly `handleClose`, so it resets the
same fields. -/
theorem handleClose_resets (s : ModalState) :
    (handleClose s).trade = none ∧ (handleClose s).error = none ∧
    handleBackdropClick true s = handleClose s ∧
    (handleBackdropClick true s).trade = none ∧
    (handleBackdropClick true s).error = none := by
  simp [handleClose, handleBackdropClick]

/-- Claim C10: on registration submit, a password/confirm mismatch
returns the mismatch validation error, a matching password with the
agreement unchecked returns the agreement validation error, and in either
case no signup request is issued. -/
theorem registerSubmit_validation (f : RegisterForm) :
    (f.password ≠ f.confirmPassword →
      registerSubmit f = .validationError "비밀번호가 일치하지 않습니다.") ∧
    (f.password = f.confirmPassword → f.agree = false →
      registerSubmit f = .validationError "이용약관에 동의해주세요.") ∧
    ((f.password ≠ f.confirmPassword ∨ f.agree = false) →
      ∀ n e p, registerSubmit f ≠ .signupRequest n e p) := by
  refine ⟨fun h => by simp [registerSubmit, h],
          fun h ha => by simp [registerSubmit, h, ha],
          fun h n e p => ?_⟩
  rcases h with h | h
  · simp [registerSubmit, h]
  · by_cases hp : f.password = f.confirmPassword
    · simp [registerSubmit, hp, h]
    · simp [registerSubmit, hp]

/-- Witness for C10: a mismatching form and an unchecked-agreement form,
both yielding validation errors. -/
theorem registerSubmit_validation_witness :
    registerSubmit ⟨"n", "e", "a", "b", true⟩ =
      .validationError "비밀번호가 일치하지 않습니다." ∧
    registerSubmit ⟨"n", "e", "a", "a", false⟩ =
      .validationError "이용약관에 동의해주세요." :=
  ⟨(registerSubmit_validation ⟨"n", "e", "a", "b", true⟩).1 (by decide),
   (registerSubmit_validation ⟨"n", "e", "a", "a", false⟩).2.1 rfl rfl⟩

/-- Concrete detail record with id 5, standing for trade 5's stale fetch
result. -/
def staleDetail5 : TradeDetail :=
  { id := 5, postId := 105, postTitle := "특허 5", postCategory := "물건발명",
    price := 500, status := "REQUEST", createdAt := "2024-01-01T00:00:00",
    sellerEmail := "s@x.com", buyerEmail := "b@x.com" }

/-- Concrete detail record with id 7, standing for trade 7's fetch
result. -/
def detail7 : TradeDetail :=
  { id := 7, postId := 107, postTitle := "특허 7", postCategory := "저작권",
    price := 700, status := "ACCEPT", createdAt := "2024-02-01T00:00:00",
    sellerEmail := "s7@x.com", buyerEmail := "b7@x.com" }

/-- Counterexample to claim C2: in a modal state whose current requested
identifier is 7 (trade 7's data already displayed), resolving trade 5's
stale fetch result sets the displayed trade to trade 5's data — the
success handler applies the result without matching its identifier
against the still-current one, so a mismatched result IS applied. -/
theorem fetchResolve_stale_applied_cx :
    staleDetail5.id ≠ (7 : Nat) ∧
    (fetchResolve { tradeId := 7, trade := some detail7 } staleDetail5).trade
      = some staleDetail5 ∧
    (fetchResolve { tradeId := 7, trade := some detail7 } staleDetail5).trade
      ≠ some detail7 := by
  refine ⟨by decide, rfl, by decide⟩

/-- Amended claim C2: the modal's fetch success handler performs no
identifier matching — for every modal state and every resolved result,
even one whose identifier differs from the currently requested
identifier, the result is applied to the displayed state unchanged. -/
theorem fetchResolve_no_id_guard (s : ModalState) (d : TradeDetail)
    (_h : d.id ≠ s.tradeId) :
    (fetchResolve s d).trade = some d ∧
    (fetchResolve s d).tradeId = s.tradeId := by
  simp [fetchResolve]

/-- Witness for the amended C2 at the concrete stale state. -/
theorem fetchResolve_no_id_guard_witness :
    (fetchResolve { tradeId := 7, trade := some detail7 } staleDetail5).trade
      = some staleDetail5 ∧
    (fetchResolve { tradeId := 7, trade := some detail7 } staleDetail5).tradeId
      = 7 :=
  fetchResolve_no_id_guard { tradeId := 7, trade := some detail7 }
    staleDetail5 (by decide)

/-- Counterexample to claim C3: the unrecognized non-empty category
"UNKNOWN" is NOT mapped to "기타" — `getCategoryLabel` passes it through
unchanged, and enrichment stores it unchanged; moreover a missing
category enriches to "카테고리 없음", not "기타". -/
theorem getCategoryLabel_unrecognized_cx :
    getCategoryLabel "UNKNOWN" = "UNKNOWN" ∧
    getCategoryLabel "UNKNOWN" ≠ "기타" ∧
    (enrichTrade
      (fun _ => .ok (some { postTitle := some "T", postCategory := some "UNKNOWN" }))
      (sampleTrade 1 100 "REQUEST")).postCategory = some "UNKNOWN" ∧
    (enrichTrade
      (fun _ => .ok (some { postTitle := some "T", postCategory := none }))
      (sampleTrade 1 100 "REQUEST")).postCategory = some "카테고리 없음" := by
  refine ⟨by decide, by decide, rfl, rfl⟩

/-- Amended claim C3: under `getCategoryLabel` only the empty string maps
to "기타"; a value that is neither a backend code nor a localized label
and is non-empty passes through unchanged; and during enrichment a
missing or empty raw category yields "카테고리 없음" (the "기타" fallback
is never consulted there). -/
theorem getCategoryLabel_fallthrough (c : String)
    (hk : c ∉ koreanCategories)
    (h2 : c ≠ "PRODUCT") (h3 : c ≠ "METHOD") (h4 : c ≠ "USAGE")
    (h5 : c ≠ "DESIGN") (h6 : c ≠ "TRADEMARK") (h7 : c ≠ "COPYRIGHT") :
    getCategoryLabel c = (if c = "" then "기타" else c) ∧
    (∀ (t : Trade) (fetch : Trade → Except Unit (Option PostData)) (d : PostData),
      fetch t = .ok (some d) →
      (d.postCategory = none ∨ d.postCategory = some "") →
      (enrichTrade fetch t).postCategory = some "카테고리 없음") := by
  constructor
  · by_cases h8 : c = ""
    · subst h8; decide
    · simp [getCategoryLabel, hk, h2, h3, h4, h5, h6, h7, strTruthy, h8]
  · intro t fetch d hf hcat
    rcases hcat with hc | hc <;> simp [enrichTrade, hf, hc, strTruthy]

/-- Witness for the amended C3 at the concrete category "UNKNOWN" and a
concrete missing-category fetch. -/
theorem getCategoryLabel_fallthrough_witness :
    getCategoryLabel "UNKNOWN" = (if "UNKNOWN" = "" then "기타" else "UNKNOWN") ∧
    (enrichTrade
      (fun _ => .ok (some { postTitle := some "T", postCategory := none }))
      (sampleTrade 1 100 "REQUEST")).postCategory = some "카테고리 없음" :=
  ⟨(getCategoryLabel_fallthrough "UNKNOWN" (by decide) (by decide) (by decide)
      (by decide) (by decide) (by decide) (by decide)).1,
   (getCategoryLabel_fallthrough "UNKNOWN" (by decide) (by decide) (by decide)
      (by decide) (by decide) (by decide) (by decide)).2
      (sampleTrade 1 100 "REQUEST")
      (fun _ => .ok (some { postTitle := some "T", postCategory := none }))
      { postTitle := some "T", postCategory := none } rfl (Or.inl rfl)⟩

/-- Claim C7: when the login failure payload carries no message, the
shown error is determined by the status code alone — 401 and 400 give
the credential-mismatch message; 403 discriminates on resultCode
('403-1' deactivated, '403-2' suspended, anything else the generic
no-permission message); 500 gives the generic server-error message. -/
theorem loginErrorMessage_status_fallbacks (e : ApiError)
    (hmsg : e.payloadMessage = none) :
    (e.respStatus = some 401 → loginErrorMessage e =
      "이메일 혹은 비밀번호를 잘못 입력하셨거나 등록되지 않은 계정입니다.") ∧
    (e.respStatus = some 400 → loginErrorMessage e =
      "이메일 혹은 비밀번호를 잘못 입력하셨거나 등록되지 않은 계정입니다.") ∧
    (e.respStatus = some 403 → e.payloadResultCode = some "403-1" →
      loginErrorMessage e = "탈퇴한 계정입니다. 새로운 계정으로 가입해주세요.") ∧
    (e.respStatus = some 403 → e.payloadResultCode = some "403-2" →
      loginErrorMessage e =
        "관리자에 의해 정지된 계정입니다. 관리자에게 문의 바랍니다.") ∧
    (e.respStatus = some 403 → e.payloadResultCode ≠ some "403-1" →
      e.payloadResultCode ≠ some "403-2" →
      loginErrorMessage e = "접근 권한이 없습니다.") ∧
    (e.respStatus = some 500 → loginErrorMessage e =
      "서버 오류가 발생했습니다. 잠시 후 다시 시도해주세요.") := by
  refine ⟨fun h => ?_, fun h => ?_, fun h hrc => ?_, fun h hrc => ?_,
    fun h hrc1 hrc2 => ?_, fun h => ?_⟩ <;>
    simp_all [loginErrorMessage, loginErrorFallback]

/-- Witness for C7: concrete message-less errors with statuses 401, 400,
403 (each resultCode arm) and 500. -/
theorem loginErrorMessage_status_fallbacks_witness :
    loginErrorMessage { response := some { status := some 401 } } =
      "이메일 혹은 비밀번호를 잘못 입력하셨거나 등록되지 않은 계정입니다." ∧
    loginErrorMessage { response := some { status := some 400 } } =
      "이메일 혹은 비밀번호를 잘못 입력하셨거나 등록되지 않은 계정입니다." ∧
    loginErrorMessage
      { response := some { status := some 403,
                           data := some { resultCode := some "403-1" } } } =
      "탈퇴한 계정입니다. 새로운 계정으로 가입해주세요." ∧
    loginErrorMessage
      { response := some { status := some 403,
                           data := some { resultCode := some "403-2" } } } =
      "관리자에 의해 정지된 계정입니다. 관리자에게 문의 바랍니다." ∧
    loginErrorMessage
      { response := some { status := some 403,
                           data := some { resultCode := some "403-9" } } } =
      "접근 권한이 없습니다." ∧
    loginErrorMessage { response := some { status := some 500 } } =
      "서버 오류가 발생했습니다. 잠시 후 다시 시도해주세요." :=
  ⟨(loginErrorMessage_status_fallbacks
      { response := some { status := some 401 } } rfl).1 rfl,
   (loginErrorMessage_status_fallbacks
      { response := some { status := some 400 } } rfl).2.1 rfl,
   (loginErrorMessage_status_fallbacks
      { response := some { status := some 403,
                           data := some { resultCode := some "403-1" } } }
      rfl).2.2.1 rfl rfl,
   (loginErrorMessage_status_fallbacks
      { response := some { status := some 403,
                           data := some { resultCode := some "403-2" } } }
      rfl).2.2.2.1 rfl rfl,
   (loginErrorMessage_status_fallbacks
      { response := some { status := some 403,
                           data := some { resultCode := some "403-9" } } }
      rfl).2.2.2.2.1 rfl (by decide) (by decide),
   (loginErrorMessage_status_fallbacks
      { response := some { status := some 500 } } rfl).2.2.2.2.2 rfl⟩

/-- Indexing the enrichment output: entry i is the enrichment of input
trade i (Promise.all preserves positions). -/
theorem fetchPostInfoForTrades_get
    (fetch : Trade → Except Unit (Option PostData)) (trades : List Trade)
    (i : Nat) (hi : i < trades.length) :
    (fetchPostInfoForTrades fetch trades).get
        ⟨i, by simpa [fetchPostInfoForTrades] using hi⟩
      = enrichTrade fetch (trades.get ⟨i, hi⟩) := by
  simp [fetchPostInfoForTrades]

/-- Claim C1: if the per-trade detail fetch fails exactly at position K
and succeeds elsewhere, the enrichment output has the input's length,
entry K carries the two fallback labels, every entry keeps its input
trade at its input position, and every other entry whose fetch succeeded
with a title and a (truthy) category carries that title and that
category's label. -/
theorem fetchPostInfoForTrades_partial_failure
    (fetch : Trade → Except Unit (Option PostData)) (trades : List Trade)
    (K : Nat) (hK : K < trades.length)
    (hfail : fetch (trades.get ⟨K, hK⟩) = .error ())
    (_hok : ∀ i (hi : i < trades.length), i ≠ K →
      fetch (trades.get ⟨i, hi⟩) ≠ .error ()) :
    (fetchPostInfoForTrades fetch trades).length = trades.length ∧
    ((fetchPostInfoForTrades fetch trades).get
        ⟨K, by simpa [fetchPostInfoForTrades] using hK⟩).postTitle
      = some "제목 없음" ∧
    ((fetchPostInfoForTrades fetch trades).get
        ⟨K, by simpa [fetchPostInfoForTrades] using hK⟩).postCategory
      = some "카테고리 없음" ∧
    (∀ i (hi : i < trades.length),
      ((fetchPostInfoForTrades fetch trades).get
          ⟨i, by simpa [fetchPostInfoForTrades] using hi⟩).toTrade
        = trades.get ⟨i, hi⟩) ∧
    (∀ i (hi : i < trades.length) (d : PostData) (ti ca : String),
      i ≠ K → fetch (trades.get ⟨i, hi⟩) = .ok (some d) →
      d.postTitle = some ti → d.postCategory = some ca → ca ≠ "" →
      ((fetchPostInfoForTrades fetch trades).get
          ⟨i, by simpa [fetchPostInfoForTrades] using hi⟩).postTitle
        = some ti ∧
      ((fetchPostInfoForTrades fetch trades).get
          ⟨i, by simpa [fetchPostInfoForTrades] using hi⟩).postCategory
        = some (getCategoryLabel ca)) := by
  have hfail' : fetch trades[K] = Except.error () := by
    simpa only [List.get_eq_getElem] using hfail
  refine ⟨by simp [fetchPostInfoForTrades], ?_, ?_, ?_, ?_⟩
  · rw [fetchPostInfoForTrades_get fetch trades K hK]
    simp [enrichTrade, hfail']
  · rw [fetchPostInfoForTrades_get fetch trades K hK]
    simp [enrichTrade, hfail']
  · intro i hi
    rw [fetchPostInfoForTrades_get fetch trades i hi]
    cases hfe : fetch trades[i] <;> simp [enrichTrade, hfe]
  · intro i hi d ti ca _hne hfe hti hca hcane
    have hfe' : fetch trades[i] = Except.ok (some d) := by
      simpa only [List.get_eq_getElem] using hfe
    rw [fetchPostInfoForTrades_get fetch trades i hi]
    simp [enrichTrade, hfe', hti, hca, strTruthy, hcane]

/-- Concrete three-trade list for the C1 witness. -/
def exTrades : List Trade :=
  [sampleTrade 1 100 "REQUEST", sampleTrade 2 200 "ACCEPT",
   sampleTrade 3 300 "COMPLETED"]

/-- Concrete fetch for the C1 witness: rejects exactly for trade id 2. -/
def exFetch (t : Trade) : Except Unit (Option PostData) :=
  if t.id = 2 then .error ()
  else .ok (some { postTitle := some "특허 A", postCategory := some "PRODUCT" })

/-- Witness for C1: three trades, the fetch failing exactly at position
1; entry 1 carries the fallback labels, entry 0 its fetched title and
localized category, and the output length matches. -/
theorem fetchPostInfoForTrades_partial_failure_witness :
    (fetchPostInfoForTrades exFetch exTrades).length = exTrades.length ∧
    ((fetchPostInfoForTrades exFetch exTrades).get ⟨1, by decide⟩).postTitle
      = some "제목 없음" ∧
    ((fetchPostInfoForTrades exFetch exTrades).get ⟨1, by decide⟩).postCategory
      = some "카테고리 없음" ∧
    ((fetchPostInfoForTrades exFetch exTrades).get ⟨0, by decide⟩).postTitle
      = some "특허 A" ∧
    ((fetchPostInfoForTrades exFetch exTrades).get ⟨0, by decide⟩).postCategory
      = some "물건발명" := by
  have hok : ∀ i (hi : i < exTrades.length), i ≠ 1 →
      exFetch (exTrades.get ⟨i, hi⟩) ≠ Except.error () := by
    intro i hi hne hcontra
    simp only [exTrades, List.length_cons, List.length_nil] at hi
    interval_cases i
    · simp [exFetch, exTrades, sampleTrade] at hcontra
    · exact hne rfl
    · simp [exFetch, exTrades, sampleTrade] at hcontra
  have h := fetchPostInfoForTrades_partial_failure exFetch exTrades 1
    (by decide) rfl hok
  exact ⟨h.1, h.2.1, h.2.2.1,
    (h.2.2.2.2 0 (by decide)
      { postTitle := some "특허 A", postCategory := some "PRODUCT" }
      "특허 A" "PRODUCT" (by decide) rfl rfl rfl (by decide)).1,
    ((h.2.2.2.2 0 (by decide)
      { postTitle := some "특허 A", postCategory := some "PRODUCT" }
      "특허 A" "PRODUCT" (by decide) rfl rfl rfl (by decide)).2).trans
      (by decide)⟩

/-- A nonempty search term is never contained in the empty string. -/
theorem strIncludes_empty_text (term : String) (h : term ≠ "") :
    strIncludes "" term = false := by
  cases hterm : term.toList with
  | nil =>
      exact absurd (String.ext (hterm.trans rfl)) h
  | cons p ps =>
      show hasSub term.toList [] = false
      rw [hterm]
      rfl

/-- The code's search test agrees with the spec's wording of it: the term
is empty, or contained in the id string, a present title, a present
category, or the price string. -/
theorem matchesSearch_iff (searchTerm : String) (t : TradeWithPostInfo) :
    matchesSearch searchTerm t = true ↔
      (searchTerm = ""
        ∨ strIncludes (toString t.id) searchTerm = true
        ∨ (∃ s, t.postTitle = some s ∧ strIncludes s searchTerm = true)
        ∨ (∃ s, t.postCategory = some s ∧ strIncludes s searchTerm = true)
        ∨ strIncludes (toString t.price) searchTerm = true) := by
  by_cases hterm : searchTerm = ""
  · subst hterm
    simp [matchesSearch, strIncludes_empty]
  · have hne : ∀ s : String, strIncludes s searchTerm = true → strTruthy s = true := by
      intro s hs
      by_cases h0 : s = ""
      · rw [h0] at hs
        rw [strIncludes_empty_text searchTerm hterm] at hs
        exact absurd hs (by simp)
      · simp [strTruthy, h0]
    constructor
    · intro h
      simp only [matchesSearch, Bool.or_eq_true] at h
      rcases h with ((h | h) | h) | h
      · exact Or.inr (Or.inl h)
      · cases hpt : t.postTitle with
        | none => rw [hpt] at h; exact absurd h (by simp)
        | some s =>
            rw [hpt] at h
            simp only [Bool.and_eq_true] at h
            exact Or.inr (Or.inr (Or.inl ⟨s, rfl, h.2⟩))
      · cases hpc : t.postCategory with
        | none => rw [hpc] at h; exact absurd h (by simp)
        | some s =>
            rw [hpc] at h
            simp only [Bool.and_eq_true] at h
            exact Or.inr (Or.inr (Or.inr (Or.inl ⟨s, rfl, h.2⟩)))
      · exact Or.inr (Or.inr (Or.inr (Or.inr h)))
    · intro h
      simp only [matchesSearch, Bool.or_eq_true]
      rcases h with h | h | ⟨s, hs, hinc⟩ | ⟨s, hs, hinc⟩ | h
      · exact absurd h hterm
      · exact Or.inl (Or.inl (Or.inl h))
      · exact Or.inl (Or.inl (Or.inr (by simp [hs, hne s hinc, hinc])))
      · exact Or.inl (Or.inr (by simp [hs, hne s hinc, hinc]))
      · exact Or.inr h

/-- Claim C4: a record is in the filtered output exactly when it is in
the input and satisfies the spec's filter predicate (status filter ALL or
equal status, and empty term or containment in one of the four searched
fields); and the concrete scenario — status filter "ACCEPT", empty term,
statuses [REQUEST, ACCEPT, ACCEPT, COMPLETED] — returns exactly the two
ACCEPT records in input order. -/
theorem filteredTrades_spec (searchTerm statusFilter : String)
    (l : List TradeWithPostInfo) (t : TradeWithPostInfo)
    (t1 t2 t3 t4 : TradeWithPostInfo)
    (h1 : t1.status = "REQUEST") (h2 : t2.status = "ACCEPT")
    (h3 : t3.status = "ACCEPT") (h4 : t4.status = "COMPLETED") :
    (t ∈ filteredTrades searchTerm statusFilter l ↔
      t ∈ l ∧ specFilterPred searchTerm statusFilter t) ∧
    filteredTrades "" "ACCEPT" [t1, t2, t3, t4] = [t2, t3] := by
  constructor
  · rw [filteredTrades, List.mem_filter]
    constructor
    · rintro ⟨hmem, hp⟩
      simp only [Bool.and_eq_true] at hp
      refine ⟨hmem, ?_, (matchesSearch_iff searchTerm t).mp hp.1⟩
      have := hp.2
      simp only [matchesStatus, Bool.or_eq_true, decide_eq_true_eq] at this
      exact this
    · rintro ⟨hmem, hst, hse⟩
      refine ⟨hmem, ?_⟩
      simp only [Bool.and_eq_true]
      refine ⟨(matchesSearch_iff searchTerm t).mpr hse, ?_⟩
      simp only [matchesStatus, Bool.or_eq_true, decide_eq_true_eq]
      exact hst
  · simp [filteredTrades, List.filter, matchesSearch, matchesStatus,
      strIncludes_empty, h1, h2, h3, h4]

/-- Witness for C4: concrete enriched trades exercising both the
membership characterization and the ACCEPT scenario. -/
theorem filteredTrades_spec_witness :
    (({ toTrade := sampleTrade 1 100 "ACCEPT",
        postTitle := some "특허 A", postCategory := some "물건발명" } :
        TradeWithPostInfo) ∈
      filteredTrades "특허" "ACCEPT"
        [{ toTrade := sampleTrade 1 100 "ACCEPT",
           postTitle := some "특허 A", postCategory := some "물건발명" }] ↔
      ({ toTrade := sampleTrade 1 100 "ACCEPT",
         postTitle := some "특허 A", postCategory := some "물건발명" } :
         TradeWithPostInfo) ∈
        [({ toTrade := sampleTrade 1 100 "ACCEPT",
            postTitle := some "특허 A", postCategory := some "물건발명" } :
            TradeWithPostInfo)] ∧
      specFilterPred "특허" "ACCEPT"
        { toTrade := sampleTrade 1 100 "ACCEPT",
          postTitle := some "특허 A", postCategory := some "물건발명" }) ∧
    filteredTrades "" "ACCEPT"
      [{ toTrade := sampleTrade 1 100 "REQUEST" },
       { toTrade := sampleTrade 2 200 "ACCEPT" },
       { toTrade := sampleTrade 3 300 "ACCEPT" },
       { toTrade := sampleTrade 4 400 "COMPLETED" }] =
      [{ toTrade := sampleTrade 2 200 "ACCEPT" },
       { toTrade := sampleTrade 3 300 "ACCEPT" }] :=
  filteredTrades_spec "특허" "ACCEPT"
    [{ toTrade := sampleTrade 1 100 "ACCEPT",
       postTitle := some "특허 A", postCategory := some "물건발명" }]
    { toTrade := sampleTrade 1 100 "ACCEPT",
      postTitle := some "특허 A", postCategory := some "물건발명" }
    { toTrade := sampleTrade 1 100 "REQUEST" }
    { toTrade := sampleTrade 2 200 "ACCEPT" }
    { toTrade := sampleTrade 3 300 "ACCEPT" }
    { toTrade := sampleTrade 4 400 "COMPLETED" }
    rfl rfl rfl rfl

/-- Claim C6: sorting three trades with prices [300, 100, 200] by the
price key yields price order [100, 200, 300] ascending and
[300, 200, 100] descending. -/
theorem sortedTrades_price_concrete (getTime : String → Int)
    (t1 t2 t3 : TradeWithPostInfo)
    (h1 : t1.price = 300) (h2 : t2.price = 100) (h3 : t3.price = 200) :
    sortedTrades getTime .price "asc" [t1, t2, t3] = [t2, t3, t1] ∧
    sortedTrades getTime .price "desc" [t1, t2, t3] = [t1, t3, t2] := by
  have hda : ("desc" = "asc") = False := by simp
  constructor <;>
    norm_num [sortedTrades, sortByCmp, insertCmp, tradeComparator,
      sortValue, SortVal.gt, SortVal.lt, h1, h2, h3, hda]

/-- Witness for C6 at concrete trades with prices 300, 100, 200. -/
theorem sortedTrades_price_concrete_witness :
    sortedTrades (fun _ => 0) .price "asc"
      [{ toTrade := sampleTrade 1 300 "ACCEPT" },
       { toTrade := sampleTrade 2 100 "ACCEPT" },
       { toTrade := sampleTrade 3 200 "ACCEPT" }] =
      [{ toTrade := sampleTrade 2 100 "ACCEPT" },
       { toTrade := sampleTrade 3 200 "ACCEPT" },
       { toTrade := sampleTrade 1 300 "ACCEPT" }] ∧
    sortedTrades (fun _ => 0) .price "desc"
      [{ toTrade := sampleTrade 1 300 "ACCEPT" },
       { toTrade := sampleTrade 2 100 "ACCEPT" },
       { toTrade := sampleTrade 3 200 "ACCEPT" }] =
      [{ toTrade := sampleTrade 1 300 "ACCEPT" },
       { toTrade := sampleTrade 3 200 "ACCEPT" },
       { toTrade := sampleTrade 2 100 "ACCEPT" }] :=
  sortedTrades_price_concrete (fun _ => 0)
    { toTrade := sampleTrade 1 300 "ACCEPT" }
    { toTrade := sampleTrade 2 100 "ACCEPT" }
    { toTrade := sampleTrade 3 200 "ACCEPT" }
    rfl rfl rfl

/-- Witness for C5 at the concrete code "PRODUCT" and the concrete
localized label "물건발명". -/
theorem getCategoryLabel_idem_witness :
    getCategoryLabel (getCategoryLabel "PRODUCT") = getCategoryLabel "PRODUCT" ∧
    getCategoryLabel "물건발명" = "물건발명" :=
  ⟨(getCategoryLabel_idem "PRODUCT").1,
   (getCategoryLabel_idem "PRODUCT").2 "물건발명" (by decide)⟩
